import Mathlib

/-!
# FridgeTrack client — verification of the resilience/consistency layer

Shallow embedding of the FridgeTrack browser client's API layer
(`client/src/api/client.ts`, `client/src/api/endpoints/*`,
`client/src/hooks/useInventory.ts`, `client/src/pages/ScanPage.tsx`,
the `ImageUpload` component and the scan endpoint module) together with
proofs about the error classifier, the retry policy, the list-endpoint
404 convention, the optimistic-removal cache protocol, the upload
validation step and the scan-page state machine.

Conventions of the embedding:
* Promises/async are modelled by pure functions from the outcome of the
  underlying I/O (given as an argument) to the produced value, with
  failures as `Except ApiError`.
* The browser `localStorage` auth token is threaded explicitly as an
  `Option String`.
* JavaScript `??` (nullish coalescing) is `Option.getD` / `Option.orElse`;
  JS truthiness tests on strings compare against `""`.
* JS numbers that only ever hold integers are `Nat`; fractional scores
  are `Rat`.
-/

namespace FridgeTrack

/-- The JSON body a failed response may carry; the client only ever reads
the `error`, `message` and `detail` fields (`client.ts`, `ScanPage.tsx`). -/
structure ServerBody where
  error : Option String
  message : Option String
  detail : Option String
  deriving Repr, DecidableEq

/-- `ApiError` from `client.ts`: status code, human message, optional body. -/
structure ApiError where
  status : Nat
  message : String
  data : Option ServerBody := none
  deriving Repr, DecidableEq

/-- `STATUS_MESSAGES` record from `client.ts` (lines 34–47), as a partial
map from status code to the fixed human string. -/
def STATUS_MESSAGES : Nat → Option String
  | 400 => some "Invalid request. Please check your input."
  | 401 => some "Session expired. Please sign in again."
  | 403 => some "You don’t have permission to do that."
  | 404 => some "The requested resource was not found."
  | 408 => some "Request timed out. Try again."
  | 409 => some "Conflict — this resource was modified elsewhere."
  | 413 => some "File is too large. Please use a smaller image."
  | 422 => some "Invalid data. Please check your input."
  | 429 => some "Too many requests. Slow down and try again."
  | 500 => some "Something went wrong on our end."
  | 502 => some "Server is temporarily unavailable."
  | 503 => some "Service is under maintenance. Try again shortly."
  | _ => none

/-- `getErrorMessage` from `client.ts` (lines 49–51):
`STATUS_MESSAGES[status] ?? fallback ?? 'An unexpected error occurred.'`. -/
def getErrorMessage (status : Nat) (fallback : Option String) : String :=
  match STATUS_MESSAGES status with
  | some m => m
  | none => fallback.getD "An unexpected error occurred."

/-- The axios instance's configured timeout (`client.ts` line 81:
`timeout: 300_000`), in milliseconds. -/
def apiClientTimeoutMs : Nat := 300000

/-- A raw axios failure handed to the response interceptor: either no
response at all (with the abort/timeout flag from `error.code ===
'ECONNABORTED'`) or a response with a non-2xx status and optional body. -/
inductive RawFailure where
  | noResponse (isTimeout : Bool)
  | httpError (status : Nat) (data : Option ServerBody)
  deriving Repr, DecidableEq

/-- The response-error interceptor from `client.ts` (lines 105–132).
Takes the stored auth token and the raw failure, returns the
`ApiError` rejected to the caller together with the token afterwards
(the interceptor clears the token on a 401 response). -/
def interceptResponseError (tok : Option String) : RawFailure → ApiError × Option String
  | .noResponse isTimeout =>
    let msg := if isTimeout then "Request timed out. Try again."
               else "Connection failed. Check your internet."
    (⟨0, msg, none⟩, tok)
  | .httpError status data =>
    let tok' := if status = 401 then none else tok
    let serverMessage := (data.bind ServerBody.error) <|> (data.bind ServerBody.message)
    (⟨status, getErrorMessage status serverMessage, data⟩, tok')

/-- A failed `fetch` response in the `upload` helper of `client.ts`
(lines 167–188): HTTP status, `statusText`, and the parsed JSON body
(`none` when `response.json()` failed and the `catch(() => null)` ran). -/
structure UploadFailure where
  status : Nat
  statusText : String
  body : Option ServerBody
  deriving Repr, DecidableEq

/-- The `!response.ok` branch of `upload` in `client.ts`:
`detail = data?.detail ?? data?.message ?? response.statusText`, then
`throw new ApiError(response.status, detail, data)`. The auth token is
returned unchanged: this code path never touches it. -/
def uploadOnFailure (tok : Option String) (f : UploadFailure) : ApiError × Option String :=
  let detail := (((f.body.bind ServerBody.detail) <|>
      (f.body.bind ServerBody.message)).getD f.statusText)
  (⟨f.status, detail, f.body⟩, tok)

/-- `InventoryItem` from `types/index.ts`. `category` is kept as a plain
string because the TS cast `raw.category as InventoryItem['category']`
is the identity at runtime. -/
structure InventoryItem where
  id : String
  user_id : String
  item_name : String
  expiration_date : String
  detected_at : String
  confidence_score : Rat
  image_url : Option String := none
  category : Option String := none
  quantity : Option Nat := none
  manually_added : Option Bool := none
  deriving Repr, DecidableEq

/-- `BackendInventoryItem` from `types/index.ts` (snake_case wire shape,
MongoDB `_id`). -/
structure BackendInventoryItem where
  mongoId : String
  user_id : String
  item_name : String
  expiration_date : Option String
  detected_at : String
  confidence_score : Rat
  image_url : Option String := none
  quantity : Option Nat := none
  category : Option String := none
  status : String
  deriving Repr, DecidableEq

/-- `BackendInventoryResponse` / `BackendExpiringResponse` item payload:
the endpoint code defends against a missing list with `?? []`, so the
list is embedded as an `Option`. -/
structure BackendInventoryResponse where
  user_id : String
  items : Option (List BackendInventoryItem)
  total : Nat
  deriving Repr, DecidableEq

/-- `BackendExpiringResponse` from `types/index.ts`, restricted to the
fields the endpoint module reads. -/
structure BackendExpiringResponse where
  user_id : String
  expiring_items : Option (List BackendInventoryItem)
  total_expiring : Nat
  deriving Repr, DecidableEq

namespace Inventory

/-- `mapItem` from the inventory endpoint module (`_id` → `id`,
`expiration_date ?? ''`). -/
def mapItem (raw : BackendInventoryItem) : InventoryItem :=
  { id := raw.mongoId
    user_id := raw.user_id
    item_name := raw.item_name
    expiration_date := raw.expiration_date.getD ""
    detected_at := raw.detected_at
    confidence_score := raw.confidence_score
    image_url := raw.image_url
    quantity := raw.quantity
    category := raw.category }

/-- `inventoryApi.getAll` (status-based variant, the one the spec follows):
on success map `response.items ?? []`; a 404 from the transport becomes
the empty list; every other failure is rethrown. The transport outcome is
the argument. -/
def getAll (resp : Except ApiError BackendInventoryResponse) :
    Except ApiError (List InventoryItem) :=
  match resp with
  | .ok r => .ok ((r.items.getD []).map mapItem)
  | .error e => if e.status = 404 then .ok [] else .error e

/-- `inventoryApi.getExpiring`: same 404-to-empty convention over
`response.expiring_items ?? []`. -/
def getExpiring (resp : Except ApiError BackendExpiringResponse) :
    Except ApiError (List InventoryItem) :=
  match resp with
  | .ok r => .ok ((r.expiring_items.getD []).map mapItem)
  | .error e => if e.status = 404 then .ok [] else .error e

/-- `inventoryApi.addItem` (status-based variant): the backend endpoint
does not exist, so the function warns and throws
`ApiError(501, ...)` without performing any request. -/
def addItem (_item : InventoryItem) : Except ApiError InventoryItem :=
  .error ⟨501, "Adding items manually is not yet supported by the backend.", none⟩

/-- `inventoryApi.deleteItem` (status-based variant): not implemented on
the backend; warns and throws `ApiError(501, ...)`. -/
def deleteItem (_id : String) : Except ApiError Unit :=
  .error ⟨501, "Deleting items is not yet supported. Mark as consumed or wasted instead.", none⟩

/-- `inventoryApi.updateItemStatus`: remaps a transport 404 and 400 into
resource-specific messages, keeping the status code; everything else is
rethrown unchanged. -/
def updateItemStatus (resp : Except ApiError (String × String)) :
    Except ApiError (String × String) :=
  match resp with
  | .ok r => .ok r
  | .error e =>
    if e.status = 404 then
      .error ⟨404, "Item not found. It may have been deleted.", e.data⟩
    else if e.status = 400 then
      .error ⟨400, "Invalid status. Use: active, consumed, or wasted.", e.data⟩
    else .error e

end Inventory

namespace Recipes

/-- `MAX_RETRIES` from `endpoints/recipes.ts`. -/
def MAX_RETRIES : Nat := 3

/-- Retry condition of `withRetry`:
`isApiError(error) && (error.status === 429 || error.status === 503)`.
All failures reaching the helper are `ApiError`s, the transport's single
error type. -/
def isRetryable (e : ApiError) : Bool :=
  e.status = 429 || e.status = 503

/-- The retry loop of `withRetry` in `endpoints/recipes.ts` (lines 26–48).
`fn attempt` is the outcome of the `attempt`-th call (0-based).
`retriesLeft = MAX_RETRIES - attempt` mirrors the loop guard
`attempt === MAX_RETRIES`. Returns the final outcome paired with the
total number of attempts made. The backoff delay
(`BASE_DELAY_MS * 2 ** attempt + jitter`) only suspends and does not
affect the value, so it is not represented. -/
def runWithRetry (fn : Nat → Except ApiError α) :
    (attempt : Nat) → (retriesLeft : Nat) → Except ApiError α × Nat
  | attempt, 0 =>
    match fn attempt with
    | .ok v => (.ok v, attempt + 1)
    | .error e => (.error e, attempt + 1)
  | attempt, n + 1 =>
    match fn attempt with
    | .ok v => (.ok v, attempt + 1)
    | .error e =>
      if isRetryable e then runWithRetry fn (attempt + 1) n
      else (.error e, attempt + 1)

/-- `withRetry` from `endpoints/recipes.ts`: up to `MAX_RETRIES`
retries, i.e. at most four total attempts. -/
def withRetry (fn : Nat → Except ApiError α) : Except ApiError α × Nat :=
  runWithRetry fn 0 MAX_RETRIES

/-- `BackendRecipe` wire shape from `types/index.ts`. -/
structure BackendRecipe where
  name : String
  ingredients : List String
  instructions : List String
  prep_time : String
  items_used : List String
  deriving Repr, DecidableEq

/-- `BackendRecipeResponse`; `recipes` is optional because `generate`
defends with `response.recipes ?? []`. -/
structure BackendRecipeResponse where
  recipes : Option (List BackendRecipe)
  expiring_items_used : List String
  message : String
  deriving Repr, DecidableEq

/-- `RecipeIngredient` from `types/index.ts`. -/
structure RecipeIngredient where
  name : String
  amount : Nat
  unit : Option String := none
  in_inventory : Bool
  deriving Repr, DecidableEq

/-- `Recipe` from `types/index.ts`, restricted to the fields `mapRecipe`
produces. -/
structure Recipe where
  id : String
  name : String
  prep_time_minutes : Int
  ingredients : List RecipeIngredient
  instructions : List String
  uses_expiring_items : List String
  deriving Repr, DecidableEq

/-- JavaScript `parseInt(s, 10)`: skip leading whitespace, optional sign,
then the longest digit run; no digits means `NaN`, embedded as `none`. -/
def parseIntBase10 (s : String) : Option Int :=
  let t := s.trim
  let (neg, digits) :=
    match t.data with
    | '-' :: rest => (true, rest)
    | '+' :: rest => (false, rest)
    | l => (false, l)
  let run := digits.takeWhile Char.isDigit
  if run.isEmpty then none
  else
    let n := run.foldl (fun acc c => acc * 10 + (c.toNat - '0'.toNat)) 0
    some (if neg then -(n : Int) else (n : Int))

/-- `mapRecipe` from `endpoints/recipes.ts`:
`parseInt(raw.prep_time, 10) || 0`, synthetic id from the index,
ingredients marked in-inventory with amount 1. -/
def mapRecipe (raw : BackendRecipe) (index : Nat) : Recipe :=
  { id := "generated-" ++ toString index
    name := raw.name
    prep_time_minutes := (parseIntBase10 raw.prep_time).getD 0
    ingredients := raw.ingredients.map (fun n =>
      { name := n, amount := 1, in_inventory := true })
    instructions := raw.instructions
    uses_expiring_items := raw.items_used }

/-- The success mapping done inside `generate`'s `withRetry` callback:
`(response.recipes ?? []).map(mapRecipe)`. -/
def mapResponse (r : BackendRecipeResponse) : List Recipe :=
  ((r.recipes.getD []).enum).map (fun p => mapRecipe p.2 p.1)

/-- `recipesApi.generate` (`endpoints/recipes.ts` lines 84–108): run the
fetch-and-map under `withRetry`; afterwards remap a 429 into the
rate-limit message (same status, same payload), turn a 404 into the
empty list, and rethrow anything else. `fn attempt` is the transport
outcome of the `attempt`-th GET. -/
def generate (fn : Nat → Except ApiError BackendRecipeResponse) :
    Except ApiError (List Recipe) :=
  match (withRetry (fun n => (fn n).map mapResponse)).1 with
  | .ok v => .ok v
  | .error e =>
    if e.status = 429 then
      .error ⟨429, "Recipe generation is rate-limited. Please wait a moment and try again.", e.data⟩
    else if e.status = 404 then .ok []
    else .error e

/-- `recipesApi.getByIngredients` (`endpoints/recipes.ts` lines 119–125):
the backend route does not exist; the function logs a console warning
and resolves with the empty list — it does not throw. -/
def getByIngredients (_ingredients : List String) : Except ApiError (List Recipe) :=
  .ok []

end Recipes

/-- The metadata of a browser `File` object that validation reads:
`name`, MIME `type`, and `size` in bytes. -/
structure FileMeta where
  name : String
  type : String
  size : Nat
  deriving Repr, DecidableEq

/-- JavaScript `(a / b).toFixed(1)` for the byte/megabyte divisions done
by the validators, as exact rational rounding to one decimal (nearest,
ties away from zero — the values used are exact so no float artefacts
arise): renders `round(10 * bytes / divisor) / 10`. -/
def toFixed1 (bytes divisor : Nat) : String :=
  let tenths := (bytes * 10 * 2 + divisor) / (2 * divisor)
  toString (tenths / 10) ++ "." ++ toString (tenths % 10)

/-- `BackendDetectionResult` from `types/index.ts`. -/
structure BackendDetectionResult where
  item_name : String
  confidence : Rat
  bounding_box : List Rat
  expiration_date : Option String
  deriving Repr, DecidableEq

/-- `BackendScanResponse` from `types/index.ts`. -/
structure BackendScanResponse where
  scan_id : String
  items_detected : List BackendDetectionResult
  total_items : Nat
  processing_time : Rat
  message : String
  deriving Repr, DecidableEq

namespace Scan

/-- `MAX_FILE_SIZE` from the scan endpoint module: 10 MB in bytes. -/
def MAX_FILE_SIZE : Nat := 10 * 1024 * 1024

/-- `ALLOWED_TYPES` from the scan endpoint module. -/
def ALLOWED_TYPES : List String :=
  ["image/jpeg", "image/png", "image/webp", "image/heic", "image/heif"]

/-- `validateImageFile` from the scan endpoint module (lines 26–41):
unknown MIME type → `ApiError(422, ...)` naming the type; size above
`MAX_FILE_SIZE` → `ApiError(413, ...)` naming the size in MB. Returns
the thrown error, or `none` when the file passes. -/
def validateImageFile (file : FileMeta) : Option ApiError :=
  if ¬ (ALLOWED_TYPES.contains file.type) then
    some ⟨422, "Invalid file format \"" ++ file.type ++ "\". Accepted: JPEG, PNG, WebP, HEIC.", none⟩
  else if file.size > MAX_FILE_SIZE then
    some ⟨413, "File is too large (" ++ toFixed1 file.size (1024 * 1024) ++ " MB). Maximum size is 10 MB.", none⟩
  else none

/-- `scanApi.uploadImage`: validate, then POST the multipart form and
remap 413/422/500 transport failures into scan-specific messages.
`net` is the outcome the `upload` helper would produce if the request
were sent. The second component records whether the network was
reached; a validation failure throws before any I/O. -/
def uploadImage (file : FileMeta) (net : Except ApiError BackendScanResponse) :
    Except ApiError BackendScanResponse × Bool :=
  match validateImageFile file with
  | some e => (.error e, false)
  | none =>
    match net with
    | .ok r => (.ok r, true)
    | .error e =>
      if e.status = 413 then
        (.error ⟨413, "File is too large. Please use a smaller image.", e.data⟩, true)
      else if e.status = 422 then
        (.error ⟨422, "Image could not be processed. Try a different photo.", e.data⟩, true)
      else if e.status = 500 then
        (.error ⟨500, "Detection failed. Please try again.", e.data⟩, true)
      else (.error e, true)

/-- `scanApi.getScanHistory` (scan endpoint module, lines 92–100): the
backend route does not exist; the function logs a console warning and
resolves with the empty list — it does not throw. -/
def getScanHistory (_userId : String) : Except ApiError (List Unit) :=
  .ok []

end Scan

/-- JavaScript `String.prototype.startsWith`, as a prefix test on the
underlying character lists. -/
def stringStartsWith (s pre : String) : Bool :=
  pre.data.isPrefixOf s.data

namespace ImageUpload

/-- `formatFileSize` from the `ImageUpload` component. -/
def formatFileSize (bytes : Nat) : String :=
  if bytes < 1024 then toString bytes ++ " B"
  else if bytes < 1024 * 1024 then toFixed1 bytes 1024 ++ " KB"
  else toFixed1 bytes (1024 * 1024) ++ " MB"

/-- `validateFile` from the `ImageUpload` component (lines 27–39):
a non-`image/*` MIME type is rejected with a message naming the file
name; a file above `maxSizeMB` is rejected with a message naming the
formatted size. Returns the error message, or `none` when valid. -/
def validateFile (file : FileMeta) (maxSizeMB : Nat) : Option String :=
  if ¬ (stringStartsWith file.type "image/") then
    some ("\"" ++ file.name ++ "\" is not an image. Please upload a JPG, PNG, or WebP file.")
  else if file.size > maxSizeMB * 1024 * 1024 then
    some ("File is too large (" ++ formatFileSize file.size ++ "). Maximum size is "
      ++ toString maxSizeMB ++ " MB.")
  else none

/-- The control flow of `processFile` in the `ImageUpload` component: on
a validation error the component enters its error state and never calls
`onUpload` (so nothing downstream can reach the network); otherwise the
(possibly compressed) file is handed to `onUpload`. The result is the
displayed error message paired with whether `onUpload` ran. -/
def processFile (file : FileMeta) (maxSizeMB : Nat) : Option String × Bool :=
  match validateFile file maxSizeMB with
  | some err => (some err, false)
  | none => (none, true)

end ImageUpload

namespace ScanPage

/-- `ScanStatus` from `ScanPage.tsx`. -/
inductive ScanStatus where
  | idle | processing | success | error
  deriving Repr, DecidableEq

/-- `ErrorType` from `ScanPage.tsx`. -/
inductive ErrorType where
  | network | server | no_items
  deriving Repr, DecidableEq

/-- The `errorMessages` table of `ScanPage.tsx`: banner title per error
type. -/
def errorTitle : ErrorType → String
  | .network => "Connection failed"
  | .server => "Something went wrong"
  | .no_items => "No items detected"

/-- The component state touched by `handleUpload`. -/
structure PageState where
  status : ScanStatus
  detectedItems : List InventoryItem
  errorType : ErrorType
  errorDetail : Option String
  deriving Repr, DecidableEq

/-- Result of one `handleUpload` run: the final component state, the
cache keys invalidated during the run, and whether the `catch` branch
(a thrown transport error) was taken. -/
structure UploadRun where
  state : PageState
  invalidatedInventory : Bool
  invalidatedExpiring : Bool
  caughtError : Bool
  deriving Repr, DecidableEq

/-- `mapDetectionToItem` from `ScanPage.tsx`; `now` stands for
`new Date().toISOString()`. -/
def mapDetectionToItem (now : String) (det : BackendDetectionResult) (index : Nat) :
    InventoryItem :=
  { id := "scan-" ++ toString index
    user_id := "demo_user"
    item_name := det.item_name
    expiration_date := det.expiration_date.getD ""
    detected_at := now
    confidence_score := det.confidence
    quantity := some 1 }

/-- The page-level `uploadImage` wrapper of `ScanPage.tsx`: map each
detected item to a display `InventoryItem`. -/
def mapDetections (now : String) (resp : BackendScanResponse) : List InventoryItem :=
  (resp.items_detected.enum).map (fun p => mapDetectionToItem now p.2 p.1)

/-- `handleUpload` from `ScanPage.tsx` (lines 173–235), as a function of
the outcome of the scan call. Mirrors the `try`/`catch`/`finally`
structure: an empty detection list sets the no-items error and returns,
the `finally` block turns every non-succeeded run into the `error`
status; only the success path invalidates the inventory and expiring
caches. -/
def handleUpload (s0 : PageState)
    (outcome : Except ApiError (List InventoryItem)) : UploadRun :=
  let s1 : PageState :=
    { s0 with status := .processing, detectedItems := [], errorDetail := none }
  match outcome with
  | .ok items =>
    if items.length = 0 then
      { state := { s1 with
          errorType := .no_items
          errorDetail := some "We couldn’t find any food items. Try better lighting or a different angle."
          status := .error }
        invalidatedInventory := false
        invalidatedExpiring := false
        caughtError := false }
    else
      { state := { s1 with detectedItems := items, status := .success }
        invalidatedInventory := true
        invalidatedExpiring := true
        caughtError := false }
  | .error e =>
    let detail := (e.data.bind ServerBody.detail).getD e.message
    let s2 : PageState :=
      if e.status = 400 then
        { s1 with errorType := .no_items, errorDetail := some detail }
      else if e.status = 408 then
        { s1 with errorType := .no_items
                  errorDetail := some (if detail = "" then
                    "Processing took too long. The image may be invalid. Try a clearer photo."
                    else detail) }
      else if e.status = 0 then
        { s1 with errorType := .network }
      else
        { s1 with errorType := .server, errorDetail := some detail }
    { state := { s2 with status := .error }
      invalidatedInventory := false
      invalidatedExpiring := false
      caughtError := true }

/-- One whole run on an HTTP-successful scan response: the page wrapper
maps the detections, then `handleUpload` consumes them. -/
def handleUploadResponse (s0 : PageState) (now : String)
    (resp : BackendScanResponse) : UploadRun :=
  handleUpload s0 (.ok (mapDetections now resp))

end ScanPage

namespace UseInventory

/-- The slice of the React Query cache that `useRemoveItem` touches for
one user: the full inventory list under key `['inventory', userId]`
(`none` when never fetched), every expiring-items entry under the key
prefix `['expiring', userId]` keyed by its `days` parameter, and the
invalidation marks set by `invalidateQueries`. -/
structure Cache where
  all : Option (List InventoryItem)
  expiring : List (Nat × Option (List InventoryItem))
  allInvalidated : Bool
  expiringInvalidated : Bool
  deriving Repr, DecidableEq

/-- The `onMutate` handler of `useRemoveItem` (`useInventory.ts` lines
112–127): after cancelling in-flight refetches (which leaves cached
data untouched), snapshot the full list, then synchronously filter the
removed id out of the full list and out of every cached expiring
variant. `setQueryData` with an updater returning `undefined` leaves an
absent entry absent, hence the `Option.map`s. Returns the new cache and
the context `{ previousAll }`. -/
def onMutateRemove (itemId : String) (c : Cache) :
    Cache × Option (List InventoryItem) :=
  let previousAll := c.all
  let c' :=
    { c with
      all := c.all.map (List.filter (fun it => it.id ≠ itemId))
      expiring := c.expiring.map
        (fun p => (p.1, p.2.map (List.filter (fun it => it.id ≠ itemId)))) }
  (c', previousAll)

/-- The `onError` handler of `useRemoveItem` (lines 128–132): restore the
snapshot verbatim when one was taken (a snapshot is any array, even an
empty one — arrays are truthy in JavaScript); the expiring entries are
not restored. -/
def onErrorRemove (context : Option (List InventoryItem)) (c : Cache) : Cache :=
  match context with
  | some previousAll => { c with all := some previousAll }
  | none => c

/-- The `onSettled` handler of `useRemoveItem` (lines 133–136): mark both
affected key prefixes invalidated, success or failure alike. -/
def onSettledRemove (c : Cache) : Cache :=
  { c with allInvalidated := true, expiringInvalidated := true }

/-- The full `useRemoveItem` mutation lifecycle for one removal:
`onMutate`, then the server call whose success is `serverOk`, then
`onError` on failure, then `onSettled`. -/
def removeItemFlow (itemId : String) (serverOk : Bool) (c : Cache) : Cache :=
  let (c1, context) := onMutateRemove itemId c
  let c2 := if serverOk then c1 else onErrorRemove context c1
  onSettledRemove c2

end UseInventory

/-- Generic substring test on the underlying character lists, used to
state which pieces of data a user-facing message mentions. -/
def listContains (needle : List Char) : List Char → Bool
  | [] => needle.isEmpty
  | c :: rest => needle.isPrefixOf (c :: rest) || listContains needle rest

/-- `strContains hay needle` holds when `needle` occurs contiguously in
`hay`. -/
def strContains (hay needle : String) : Bool :=
  listContains needle.data hay.data

/-! ## Theorems -/

/-- `isRetryable` holds exactly on the 429 and 503 classifications. -/
theorem isRetryable_iff (e : ApiError) :
    Recipes.isRetryable e = true ↔ (e.status = 429 ∨ e.status = 503) := by
  simp [Recipes.isRetryable]

/-- Whatever error the retry loop ends with is, verbatim, the outcome of
its final attempt. -/
theorem runWithRetry_error_last {α : Type} :
    ∀ (r a n : Nat) (fn : Nat → Except ApiError α) (e : ApiError),
      Recipes.runWithRetry fn a r = (.error e, n + 1) → fn n = .error e := by
  intro r
  induction r with
  | zero =>
    intro a n fn e h
    cases hf : fn a with
    | ok v => simp [Recipes.runWithRetry, hf] at h
    | error e' =>
      simp [Recipes.runWithRetry, hf] at h
      obtain ⟨he, ha⟩ := h
      have : a = n := by omega
      subst this
      rw [hf, he]
  | succ r ih =>
    intro a n fn e h
    cases hf : fn a with
    | ok v => simp [Recipes.runWithRetry, hf] at h
    | error e' =>
      cases hrb : Recipes.isRetryable e' with
      | false =>
        simp [Recipes.runWithRetry, hf, hrb] at h
        obtain ⟨he, ha⟩ := h
        have : a = n := by omega
        subst this
        rw [hf, he]
      | true =>
        simp [Recipes.runWithRetry, hf, hrb] at h
        exact ih (a + 1) n fn e h

/-- Every attempt before the final one of the retry loop failed with a
retry-eligible classification. -/
theorem runWithRetry_retried_retryable {α : Type} :
    ∀ (r a k : Nat) (fn : Nat → Except ApiError α),
      a ≤ k → k + 1 < (Recipes.runWithRetry fn a r).2 →
      ∃ e, fn k = .error e ∧ Recipes.isRetryable e = true := by
  intro r
  induction r with
  | zero =>
    intro a k fn hak h
    cases hf : fn a <;> simp [Recipes.runWithRetry, hf] at h <;> omega
  | succ r ih =>
    intro a k fn hak h
    cases hf : fn a with
    | ok v => simp [Recipes.runWithRetry, hf] at h; omega
    | error e =>
      cases hrb : Recipes.isRetryable e with
      | false => simp [Recipes.runWithRetry, hf, hrb] at h; omega
      | true =>
        simp [Recipes.runWithRetry, hf, hrb] at h
        rcases Nat.lt_or_ge a k with hlt | hge
        · exact ih (a + 1) k fn (by omega) h
        · have : a = k := by omega
          subst this
          exact ⟨e, hf, hrb⟩

/-- C2: the recipe-generation retry policy. A call that always fails with
status 500 is attempted exactly once; a call that fails with 429 three
times then succeeds is attempted exactly 4 times and returns the success
value; a call that fails with 429 on every attempt is attempted exactly
4 times and then propagates the final 429 error itself; and only the 429
and 503 classifications are ever retried. -/
theorem withRetry_policy {α : Type} (e500 : ApiError) (eSeq : Nat → ApiError) (v : α)
    (fail3 : Nat → Except ApiError α)
    (h500 : e500.status = 500)
    (h429 : ∀ n, (eSeq n).status = 429)
    (hf : ∀ n, n < 3 → fail3 n = .error (eSeq n))
    (hs : fail3 3 = .ok v) :
    Recipes.withRetry (fun _ => (.error e500 : Except ApiError α)) = (.error e500, 1)
    ∧ Recipes.withRetry fail3 = (.ok v, 4)
    ∧ Recipes.withRetry (fun n => (.error (eSeq n) : Except ApiError α))
        = (.error (eSeq 3), 4)
    ∧ ∀ (fn : Nat → Except ApiError α) (k : Nat),
        k + 1 < (Recipes.withRetry fn).2 →
        ∃ e, fn k = Except.error e ∧ (e.status = 429 ∨ e.status = 503) := by
  have h0 := hf 0 (by omega)
  have h1 := hf 1 (by omega)
  have h2 := hf 2 (by omega)
  refine ⟨?_, ?_, ?_, ?_⟩
  · simp [Recipes.withRetry, Recipes.MAX_RETRIES, Recipes.runWithRetry,
      Recipes.isRetryable, h500]
  · simp [Recipes.withRetry, Recipes.MAX_RETRIES, Recipes.runWithRetry,
      Recipes.isRetryable, h0, h1, h2, hs, h429]
  · simp [Recipes.withRetry, Recipes.MAX_RETRIES, Recipes.runWithRetry,
      Recipes.isRetryable, h429]
  · intro fn k h
    obtain ⟨e, hfk, hr⟩ :=
      runWithRetry_retried_retryable Recipes.MAX_RETRIES 0 k fn (Nat.zero_le k) h
    exact ⟨e, hfk, (isRetryable_iff e).1 hr⟩

/-- C2 witness: the three retry scenarios at concrete inputs. -/
theorem withRetry_policy_witness :
    Recipes.withRetry (fun _ => (.error ⟨500, "Something went wrong on our end.", none⟩ :
        Except ApiError Nat))
      = (.error ⟨500, "Something went wrong on our end.", none⟩, 1)
    ∧ Recipes.withRetry (fun n => if n < 3 then
          (.error ⟨429, "Too many requests. Slow down and try again.", none⟩ :
            Except ApiError Nat)
        else .ok 7)
      = (.ok 7, 4)
    ∧ Recipes.withRetry (fun _ => (.error ⟨429, "Too many requests. Slow down and try again.", none⟩ :
        Except ApiError Nat))
      = (.error ⟨429, "Too many requests. Slow down and try again.", none⟩, 4) := by
  have h := withRetry_policy (α := Nat)
    ⟨500, "Something went wrong on our end.", none⟩
    (fun _ => ⟨429, "Too many requests. Slow down and try again.", none⟩) 7
    (fun n => if n < 3 then
        .error ⟨429, "Too many requests. Slow down and try again.", none⟩
      else .ok 7)
    rfl (fun _ => rfl) (fun n hn => by simp [hn]) rfl
  exact ⟨h.1, h.2.1, h.2.2.1⟩

/-- C3: when the retry policy gives up — whether by exhausting its
retries or on the first non-retryable classification — the error it
propagates is exactly the outcome of the last attempt: the caller
receives the last transport/endpoint-classified `ApiError` with status
and message unchanged. -/
theorem withRetry_propagates_last_error {α : Type}
    (fn : Nat → Except ApiError α) (e : ApiError) (n : Nat)
    (h : Recipes.withRetry fn = (Except.error e, n + 1)) :
    ∃ e0, fn n = Except.error e0 ∧ e0.status = e.status ∧ e0.message = e.message := by
  have := runWithRetry_error_last Recipes.MAX_RETRIES 0 n fn e h
  exact ⟨e, this, rfl, rfl⟩

/-- C3 witness: a run that exhausts its retries on 503 propagates the
final 503 error unchanged. -/
theorem withRetry_propagates_last_error_witness :
    ∃ e0, (fun (_ : Nat) => (.error ⟨503, "Service is under maintenance. Try again shortly.", none⟩ :
        Except ApiError Nat)) 3 = Except.error e0
      ∧ e0.status = 503
      ∧ e0.message = "Service is under maintenance. Try again shortly." :=
  withRetry_propagates_last_error
    (fun _ => .error ⟨503, "Service is under maintenance. Try again shortly.", none⟩)
    ⟨503, "Service is under maintenance. Try again shortly.", none⟩ 3 rfl

/-- C4: every list-returning endpoint — inventory `getAll`, inventory
`getExpiring`, and recipe `generate` — turns a 404 transport failure into
the empty list: the operation neither throws nor yields a missing value. -/
theorem list_endpoints_404_empty (e : ApiError) (h : e.status = 404) :
    Inventory.getAll (.error e) = .ok []
    ∧ Inventory.getExpiring (.error e) = .ok []
    ∧ ∀ fn : Nat → Except ApiError Recipes.BackendRecipeResponse,
        fn 0 = Except.error e → Recipes.generate fn = .ok [] := by
  refine ⟨?_, ?_, ?_⟩
  · simp [Inventory.getAll, h]
  · simp [Inventory.getExpiring, h]
  · intro fn hfn
    simp [Recipes.generate, Recipes.withRetry, Recipes.MAX_RETRIES,
      Recipes.runWithRetry, Recipes.isRetryable, Except.map, hfn, h]

/-- C4 witness: a concrete 404 error yields the empty list on all three
endpoints. -/
theorem list_endpoints_404_empty_witness :
    Inventory.getAll (.error ⟨404, "The requested resource was not found.", none⟩) = .ok []
    ∧ Inventory.getExpiring (.error ⟨404, "The requested resource was not found.", none⟩) = .ok []
    ∧ Recipes.generate (fun _ => .error ⟨404, "The requested resource was not found.", none⟩)
        = .ok [] := by
  have h := list_endpoints_404_empty ⟨404, "The requested resource was not found.", none⟩ rfl
  exact ⟨h.1, h.2.1, h.2.2 _ rfl⟩

/-- C5 counterexample: a 404 response whose body carries the
server-supplied error text `"custom"` is classified with the fixed
per-code string, not with the server text — the server text does not
override the per-code message, contrary to the claim. -/
theorem classifier_server_text_not_overriding :
    (interceptResponseError (some "tok")
        (.httpError 404 (some ⟨some "custom", none, none⟩))).1.status = 404
    ∧ (interceptResponseError (some "tok")
        (.httpError 404 (some ⟨some "custom", none, none⟩))).1.message
        = "The requested resource was not found."
    ∧ (interceptResponseError (some "tok")
        (.httpError 404 (some ⟨some "custom", none, none⟩))).1.message
        ≠ "custom" := by
  refine ⟨rfl, rfl, ?_⟩
  decide

/-- C5 amended: for every non-2xx response the classifier sets the
structured error's status to the HTTP code; when the code is one of the
twelve recognized ones the message is always the fixed per-code string
(a server-supplied body never overrides it); only for unrecognized codes
is the server-supplied `error`/`message` body text used, with the
generic fallback when the body carries neither. -/
theorem classifier_status_and_message (tok : Option String) (status : Nat)
    (data : Option ServerBody) :
    (interceptResponseError tok (.httpError status data)).1.status = status
    ∧ (∀ m, STATUS_MESSAGES status = some m →
        (interceptResponseError tok (.httpError status data)).1.message = m)
    ∧ (STATUS_MESSAGES status = none →
        (interceptResponseError tok (.httpError status data)).1.message
          = ((data.bind ServerBody.error) <|> (data.bind ServerBody.message)).getD
              "An unexpected error occurred.") := by
  refine ⟨rfl, ?_, ?_⟩
  · intro m hm
    simp [interceptResponseError, getErrorMessage, hm]
  · intro hm
    simp [interceptResponseError, getErrorMessage, hm]

/-- C5 witness: a recognized code keeps its fixed string; an unrecognized
code with a body `message` field surfaces the server text. -/
theorem classifier_status_and_message_witness :
    (interceptResponseError (some "tok") (.httpError 503 none)).1.message
      = "Service is under maintenance. Try again shortly."
    ∧ (interceptResponseError (some "tok")
        (.httpError 418 (some ⟨none, some "teapot", none⟩))).1.message = "teapot" := by
  refine ⟨?_, ?_⟩
  · exact (classifier_status_and_message (some "tok") 503 none).2.1 _ rfl
  · exact (classifier_status_and_message (some "tok") 418
      (some ⟨none, some "teapot", none⟩)).2.2 rfl

/-- C6: an HTTP-successful scan whose detection list is empty never ends
in the success state: `handleUpload` finishes in the `error` status with
the no-items error type (rendered as the title "No items detected") and
a no-items detail message, without taking the thrown-error branch. -/
theorem empty_detection_is_error (s0 : ScanPage.PageState) (now : String)
    (resp : BackendScanResponse) (h : resp.items_detected = []) :
    (ScanPage.handleUploadResponse s0 now resp).state.status = ScanPage.ScanStatus.error
    ∧ (ScanPage.handleUploadResponse s0 now resp).state.errorType = ScanPage.ErrorType.no_items
    ∧ (ScanPage.handleUploadResponse s0 now resp).state.errorDetail
        = some "We couldn’t find any food items. Try better lighting or a different angle."
    ∧ ScanPage.errorTitle ScanPage.ErrorType.no_items = "No items detected"
    ∧ (ScanPage.handleUploadResponse s0 now resp).caughtError = false := by
  simp [ScanPage.handleUploadResponse, ScanPage.mapDetections, h,
    ScanPage.handleUpload, ScanPage.errorTitle]

/-- C6 witness: a concrete empty-detection response ends in the error
state with the no-items message and no thrown transport error. -/
theorem empty_detection_is_error_witness :
    (ScanPage.handleUploadResponse
        ⟨ScanPage.ScanStatus.idle, [], ScanPage.ErrorType.network, none⟩ "2026-10-12"
        ⟨"scan1", [], 0, 1, "ok"⟩).state.status = ScanPage.ScanStatus.error
    ∧ (ScanPage.handleUploadResponse
        ⟨ScanPage.ScanStatus.idle, [], ScanPage.ErrorType.network, none⟩ "2026-10-12"
        ⟨"scan1", [], 0, 1, "ok"⟩).state.errorDetail
        = some "We couldn’t find any food items. Try better lighting or a different angle."
    ∧ (ScanPage.handleUploadResponse
        ⟨ScanPage.ScanStatus.idle, [], ScanPage.ErrorType.network, none⟩ "2026-10-12"
        ⟨"scan1", [], 0, 1, "ok"⟩).caughtError = false := by
  have h := empty_detection_is_error
    ⟨ScanPage.ScanStatus.idle, [], ScanPage.ErrorType.network, none⟩ "2026-10-12"
    ⟨"scan1", [], 0, 1, "ok"⟩ rfl
  exact ⟨h.1, h.2.2.1, h.2.2.2.2⟩

/-- C7 counterexample: the `ImageUpload` validator rejects a
`text/plain` file of 100 bytes with a message that names neither the
file's actual MIME type nor its actual size (it names the file name),
so "a user-facing error message that names the actual size or type"
fails for this validator. -/
theorem validateFile_message_omits_type :
    ImageUpload.validateFile ⟨"notes", "text/plain", 100⟩ 10
      = some "\"notes\" is not an image. Please upload a JPG, PNG, or WebP file."
    ∧ ImageUpload.formatFileSize 100 = "100 B"
    ∧ strContains "\"notes\" is not an image. Please upload a JPG, PNG, or WebP file."
        "text/plain" = false
    ∧ strContains "\"notes\" is not an image. Please upload a JPG, PNG, or WebP file."
        "100 B" = false := by
  refine ⟨by decide, by decide, by decide, by decide⟩

/-- C7 amended: every file with a disallowed MIME type or a size above
the 10 MB ceiling fails validation before any network I/O, with a
specific user-facing message; the scan-endpoint validator names the
offending MIME type (422) or the actual size (413), while the
`ImageUpload` validator names the actual size for oversized files but
names the file name — not its MIME type — for non-image files. -/
theorem upload_validation_rejections (f : FileMeta) (mb : Nat) :
    (Scan.ALLOWED_TYPES.contains f.type = false →
      Scan.validateImageFile f = some ⟨422,
          "Invalid file format \"" ++ f.type ++ "\". Accepted: JPEG, PNG, WebP, HEIC.", none⟩
      ∧ ∀ net, Scan.uploadImage f net
          = (.error ⟨422,
              "Invalid file format \"" ++ f.type ++ "\". Accepted: JPEG, PNG, WebP, HEIC.",
              none⟩, false))
    ∧ (Scan.ALLOWED_TYPES.contains f.type = true → f.size > Scan.MAX_FILE_SIZE →
      Scan.validateImageFile f = some ⟨413,
          "File is too large (" ++ toFixed1 f.size (1024 * 1024)
            ++ " MB). Maximum size is 10 MB.", none⟩
      ∧ ∀ net, Scan.uploadImage f net
          = (.error ⟨413,
              "File is too large (" ++ toFixed1 f.size (1024 * 1024)
                ++ " MB). Maximum size is 10 MB.", none⟩, false))
    ∧ (stringStartsWith f.type "image/" = false →
      ImageUpload.processFile f mb
        = (some ("\"" ++ f.name ++ "\" is not an image. Please upload a JPG, PNG, or WebP file."),
           false))
    ∧ (stringStartsWith f.type "image/" = true → f.size > mb * 1024 * 1024 →
      ImageUpload.processFile f mb
        = (some ("File is too large (" ++ ImageUpload.formatFileSize f.size
            ++ "). Maximum size is " ++ toString mb ++ " MB."), false)) := by
  refine ⟨?_, ?_, ?_, ?_⟩
  · intro ht
    have hv : Scan.validateImageFile f = some ⟨422,
        "Invalid file format \"" ++ f.type ++ "\". Accepted: JPEG, PNG, WebP, HEIC.", none⟩ := by
      simp only [Scan.validateImageFile]
      rw [ht]
      simp
    exact ⟨hv, fun net => by simp [Scan.uploadImage, hv]⟩
  · intro ht hs
    have hv : Scan.validateImageFile f = some ⟨413,
        "File is too large (" ++ toFixed1 f.size (1024 * 1024)
          ++ " MB). Maximum size is 10 MB.", none⟩ := by
      simp only [Scan.validateImageFile]
      rw [ht]
      simp [hs]
    exact ⟨hv, fun net => by simp [Scan.uploadImage, hv]⟩
  · intro ht
    simp only [ImageUpload.processFile, ImageUpload.validateFile]
    rw [ht]
    simp
  · intro ht hs
    simp only [ImageUpload.processFile, ImageUpload.validateFile]
    rw [ht]
    simp [hs]

/-- C7 witness: a 12 MB JPEG and a `.txt` file are rejected by both
validators with no network call. -/
theorem upload_validation_rejections_witness :
    (∀ net, Scan.uploadImage ⟨"big.jpg", "image/jpeg", 12 * 1024 * 1024⟩ net
      = (.error ⟨413, "File is too large (12.0 MB). Maximum size is 10 MB.", none⟩, false))
    ∧ (∀ net, Scan.uploadImage ⟨"notes.txt", "text/plain", 100⟩ net
      = (.error ⟨422, "Invalid file format \"text/plain\". Accepted: JPEG, PNG, WebP, HEIC.",
          none⟩, false))
    ∧ ImageUpload.processFile ⟨"big.jpg", "image/jpeg", 12 * 1024 * 1024⟩ 10
      = (some "File is too large (12.0 MB). Maximum size is 10 MB.", false)
    ∧ ImageUpload.processFile ⟨"notes.txt", "text/plain", 100⟩ 10
      = (some "\"notes.txt\" is not an image. Please upload a JPG, PNG, or WebP file.",
         false) := by
  refine ⟨?_, ?_, ?_, ?_⟩
  · exact ((upload_validation_rejections ⟨"big.jpg", "image/jpeg", 12 * 1024 * 1024⟩ 10).2.1
      (by decide) (by norm_num [Scan.MAX_FILE_SIZE])).2
  · exact ((upload_validation_rejections ⟨"notes.txt", "text/plain", 100⟩ 10).1 (by decide)).2
  · exact (upload_validation_rejections ⟨"big.jpg", "image/jpeg", 12 * 1024 * 1024⟩ 10).2.2.2
      (by decide) (by norm_num)
  · exact (upload_validation_rejections ⟨"notes.txt", "text/plain", 100⟩ 10).2.2.1 (by decide)

/-- C8 counterexample: the recipe search-by-ingredients and scan-history
operations, both unimplemented on the backend, resolve successfully with
the empty list instead of failing fast with a "not implemented" status. -/
theorem unimplemented_endpoints_silently_succeed :
    Recipes.getByIngredients ["tomato"] = .ok []
    ∧ Scan.getScanHistory "user1" = .ok [] :=
  ⟨rfl, rfl⟩

/-- C8 amended: of the four backend-unimplemented operations, manual add
and delete fail fast with a distinct 501 "not implemented" error, while
recipe search-by-ingredients and scan history silently resolve with the
empty list (logging only a console warning). -/
theorem not_implemented_endpoints (item : InventoryItem) (id userId : String)
    (ings : List String) :
    Inventory.addItem item
      = .error ⟨501, "Adding items manually is not yet supported by the backend.", none⟩
    ∧ Inventory.deleteItem id
      = .error ⟨501, "Deleting items is not yet supported. Mark as consumed or wasted instead.", none⟩
    ∧ Recipes.getByIngredients ings = .ok []
    ∧ Scan.getScanHistory userId = .ok [] :=
  ⟨rfl, rfl, rfl, rfl⟩

/-- C9 counterexample: the axios instance is configured with a 300 000 ms
timeout, not the 30-second bound the claim states. -/
theorem apiClient_timeout_not_thirty_seconds :
    apiClientTimeoutMs = 300000 ∧ apiClientTimeoutMs ≠ 30000 :=
  ⟨rfl, by decide⟩

/-- C9 amended: ordinary requests carry a bounded timeout of 300 seconds
whose abort is classified as status 0 with the timeout message (not as
408); the multipart upload path sets no client-side timeout, and an
upload failure's classified status is always exactly the HTTP status the
server responded with, so a 408 classification can only come from the
server itself. -/
theorem transport_timeout_configuration (tok : Option String) (f : UploadFailure) :
    apiClientTimeoutMs = 300000
    ∧ (interceptResponseError tok (.noResponse true)).1
        = ⟨0, "Request timed out. Try again.", none⟩
    ∧ (uploadOnFailure tok f).1.status = f.status :=
  ⟨rfl, rfl, rfl⟩

/-- C10 counterexample: a failed upload classified with status 401 leaves
the stored credential token in place — the fetch-based upload path never
clears it, contrary to "for every failed request classified with status
401, the stored credential token is cleared". -/
theorem upload_401_keeps_token :
    uploadOnFailure (some "token") ⟨401, "Unauthorized", none⟩
      = (⟨401, "Unauthorized", none⟩, some "token") :=
  rfl

/-- C10 amended: requests flowing through the axios response interceptor
clear the stored token exactly when the classification's status is 401
and leave it unchanged on every other classification; the fetch-based
upload path leaves the token unchanged on every failure, including 401. -/
theorem auth_token_clearing (tok : Option String) (f : RawFailure) (uf : UploadFailure) :
    ((interceptResponseError tok f).1.status = 401 →
      (interceptResponseError tok f).2 = none)
    ∧ ((interceptResponseError tok f).1.status ≠ 401 →
      (interceptResponseError tok f).2 = tok)
    ∧ (uploadOnFailure tok uf).2 = tok := by
  refine ⟨?_, ?_, rfl⟩
  · intro h
    cases f with
    | noResponse t => simp [interceptResponseError] at h
    | httpError status data =>
      simp [interceptResponseError] at h ⊢
      simp [h]
  · intro h
    cases f with
    | noResponse t => rfl
    | httpError status data =>
      simp [interceptResponseError] at h ⊢
      simp [h]

/-- C10 witness: a 401 through the interceptor clears a stored token; a
500 leaves it; a 401 through the upload path leaves it. -/
theorem auth_token_clearing_witness :
    (interceptResponseError (some "tok") (.httpError 401 none)).2 = none
    ∧ (interceptResponseError (some "tok") (.httpError 500 none)).2 = some "tok"
    ∧ (uploadOnFailure (some "tok") ⟨401, "Unauthorized", none⟩).2 = some "tok" := by
  refine ⟨?_, ?_, ?_⟩
  · exact (auth_token_clearing (some "tok") (.httpError 401 none)
      ⟨401, "Unauthorized", none⟩).1 rfl
  · exact (auth_token_clearing (some "tok") (.httpError 500 none)
      ⟨401, "Unauthorized", none⟩).2.1 (by decide)
  · exact (auth_token_clearing (some "tok") (.httpError 500 none)
      ⟨401, "Unauthorized", none⟩).2.2

/-- C1: optimistic removal over a cached full list `[A, B, C]`. After the
optimistic write of `onMutate` — and hence at every point until the
server responds, since no later step runs before then — the full-list
cache holds exactly `[A, C]`; when the server call fails, rollback
restores exactly `[A, B, C]`, with `B` (all fields included) the very
value snapshotted before the mutation; and success or failure, both
affected key prefixes are invalidated once the mutation settles. -/
theorem useRemoveItem_optimistic_removal
    (A B C : InventoryItem) (exp : List (Nat × Option (List InventoryItem)))
    (hA : A.id ≠ B.id) (hC : C.id ≠ B.id) :
    (UseInventory.onMutateRemove B.id
        ⟨some [A, B, C], exp, false, false⟩).1.all = some [A, C]
    ∧ (UseInventory.onMutateRemove B.id
        ⟨some [A, B, C], exp, false, false⟩).2 = some [A, B, C]
    ∧ (UseInventory.removeItemFlow B.id true
        ⟨some [A, B, C], exp, false, false⟩).all = some [A, C]
    ∧ (UseInventory.removeItemFlow B.id false
        ⟨some [A, B, C], exp, false, false⟩).all = some [A, B, C]
    ∧ ∀ serverOk : Bool,
        (UseInventory.removeItemFlow B.id serverOk
          ⟨some [A, B, C], exp, false, false⟩).allInvalidated = true
        ∧ (UseInventory.removeItemFlow B.id serverOk
          ⟨some [A, B, C], exp, false, false⟩).expiringInvalidated = true := by
  have hfilter : List.filter (fun it => !decide (it.id = B.id)) [A, B, C] = [A, C] := by
    simp [List.filter, hA, hC]
  refine ⟨?_, rfl, ?_, ?_, ?_⟩
  · simp [UseInventory.onMutateRemove, hfilter]
  · simp [UseInventory.removeItemFlow, UseInventory.onMutateRemove,
      UseInventory.onSettledRemove, hfilter]
  · simp [UseInventory.removeItemFlow, UseInventory.onMutateRemove,
      UseInventory.onErrorRemove, UseInventory.onSettledRemove]
  · intro serverOk
    cases serverOk <;>
      simp [UseInventory.removeItemFlow, UseInventory.onMutateRemove,
        UseInventory.onErrorRemove, UseInventory.onSettledRemove]

/-- C1 witness: a concrete three-item cache, with one expiring variant,
removing the middle item. -/
theorem useRemoveItem_optimistic_removal_witness :
    (UseInventory.onMutateRemove "b"
        ⟨some [⟨"a", "u", "Apple", "2026-01-01", "t0", 1, none, none, none, none⟩,
               ⟨"b", "u", "Bread", "2026-01-02", "t0", 1, none, none, none, none⟩,
               ⟨"c", "u", "Cheese", "2026-01-03", "t0", 1, none, none, none, none⟩],
          [(3, some [⟨"b", "u", "Bread", "2026-01-02", "t0", 1, none, none, none, none⟩])],
          false, false⟩).1.all
      = some [⟨"a", "u", "Apple", "2026-01-01", "t0", 1, none, none, none, none⟩,
              ⟨"c", "u", "Cheese", "2026-01-03", "t0", 1, none, none, none, none⟩]
    ∧ (UseInventory.removeItemFlow "b" false
        ⟨some [⟨"a", "u", "Apple", "2026-01-01", "t0", 1, none, none, none, none⟩,
               ⟨"b", "u", "Bread", "2026-01-02", "t0", 1, none, none, none, none⟩,
               ⟨"c", "u", "Cheese", "2026-01-03", "t0", 1, none, none, none, none⟩],
          [(3, some [⟨"b", "u", "Bread", "2026-01-02", "t0", 1, none, none, none, none⟩])],
          false, false⟩).all
      = some [⟨"a", "u", "Apple", "2026-01-01", "t0", 1, none, none, none, none⟩,
              ⟨"b", "u", "Bread", "2026-01-02", "t0", 1, none, none, none, none⟩,
              ⟨"c", "u", "Cheese", "2026-01-03", "t0", 1, none, none, none, none⟩]
    ∧ (UseInventory.removeItemFlow "b" true
        ⟨some [⟨"a", "u", "Apple", "2026-01-01", "t0", 1, none, none, none, none⟩,
               ⟨"b", "u", "Bread", "2026-01-02", "t0", 1, none, none, none, none⟩,
               ⟨"c", "u", "Cheese", "2026-01-03", "t0", 1, none, none, none, none⟩],
          [(3, some [⟨"b", "u", "Bread", "2026-01-02", "t0", 1, none, none, none, none⟩])],
          false, false⟩).allInvalidated = true := by
  have h := useRemoveItem_optimistic_removal
    ⟨"a", "u", "Apple", "2026-01-01", "t0", 1, none, none, none, none⟩
    ⟨"b", "u", "Bread", "2026-01-02", "t0", 1, none, none, none, none⟩
    ⟨"c", "u", "Cheese", "2026-01-03", "t0", 1, none, none, none, none⟩
    [(3, some [⟨"b", "u", "Bread", "2026-01-02", "t0", 1, none, none, none, none⟩])]
    (by decide) (by decide)
  exact ⟨h.1, h.2.2.2.1, (h.2.2.2.2 true).1⟩

end FridgeTrack
